import Mathlib

/- Formal model of pysplit mapmaker.py: the normalization and level-selection
logic of traj_scatter, meteo_contouring and adjust_contourparams, shallowly
embedded.  Numeric data is modelled with exact rationals, numpy and
matplotlib calls that merely record rendering parameters are modelled as
structures, and Python exceptions are modelled with an explicit error type.
The module runs under Python 2 (it uses print statements and the unbound
method call str.lower(cnormalize)). -/

/-- Python exception values for the code paths modelled here.  The payload
string abbreviates the CPython message (for attributeError it is the name of
the missing attribute, for keyError the missing key).  domainError and
configurationError model exception classes that the specification of this
module postulates; mapmaker.py defines and raises neither, and they are
included only so that theorems can compare actual errors against them. -/
inductive PyErr where
  | typeError : String → PyErr
  | attributeError : String → PyErr
  | keyError : String → PyErr
  | indexError : String → PyErr
  | valueError : String → PyErr
  | domainError : PyErr
  | configurationError : PyErr
  deriving DecidableEq

instance {ε α : Type} [DecidableEq ε] [DecidableEq α] : DecidableEq (Except ε α) :=
  fun a b =>
    match a, b with
    | .error e, .error f =>
      if h : e = f then .isTrue (by rw [h])
      else .isFalse (fun hh => h (by cases hh; rfl))
    | .ok x, .ok y =>
      if h : x = y then .isTrue (by rw [h])
      else .isFalse (fun hh => h (by cases hh; rfl))
    | .error _, .ok _ => .isFalse (fun hh => Except.noConfusion hh)
    | .ok _, .error _ => .isFalse (fun hh => Except.noConfusion hh)

/-- The numpy universal functions referenced by mapmaker.py.  npLog is
numpy.log, the natural logarithm; npLog10 is numpy.log10, the base ten
logarithm; npSqrt is numpy.sqrt.  They are kept symbolic: the claims concern
which transform is selected, not transcendental values. -/
inductive Ufunc where
  | npSqrt
  | npLog10
  | npLog
  deriving DecidableEq

/-- Attribute lookup on the numpy module, restricted to the names that
mapmaker.py asks for.  numpy exposes sqrt, log10 and log, but it has no
attribute named ln (the natural logarithm is numpy.log), so the lookup np.ln
performed on line 72 raises AttributeError. -/
def np_getattr : String → Except PyErr Ufunc
  | "sqrt" => .ok .npSqrt
  | "log10" => .ok .npLog10
  | "log" => .ok .npLog
  | name => .error (.attributeError name)

/-- ASCII lowercasing of one character, as Python str.lower performs it on
the byte strings of Python 2 (the mode names at issue are pure ASCII). -/
def ascii_lower (c : Char) : Char :=
  if 65 ≤ c.toNat ∧ c.toNat ≤ 90 then Char.ofNat (c.toNat + 32) else c

/-- Python str.lower on a string value. -/
def py_lower (s : String) : String :=
  String.mk (s.data.map ascii_lower)

/-- Line 65 of traj_scatter: cnormalize = str.lower(cnormalize).  Calling
the unbound method str.lower with None (the documented default of
cnormalize) raises TypeError; with a string it lowercases. -/
def str_lower_method : Option String → Except PyErr String
  | none => .error (.typeError ("str.lower received None"))
  | some s => .ok (py_lower s)

/-- Lines 70-72 of traj_scatter: the transform_dict literal.  Evaluating the
literal evaluates np.sqrt, np.log10 and np.ln in order; the third lookup
raises AttributeError, so every execution that reaches line 70 raises there,
before any normalization branch or backend call. -/
def build_transform_dict : Except PyErr (List (String × Ufunc)) := do
  let fsqrt ← np_getattr ("sqrt")
  let flog10 ← np_getattr ("log10")
  let fln ← np_getattr ("ln")
  pure [(("sqrt"), fsqrt), (("log"), flog10), (("ln"), fln)]

/-- numpy ndarray.min(): raises ValueError on an empty array, otherwise
folds the binary minimum over the elements. -/
def np_min : List ℚ → Except PyErr ℚ
  | [] => .error (.valueError ("zero-size array reduction"))
  | x :: xs => .ok (xs.foldl min x)

/-- numpy ndarray.max(): raises ValueError on an empty array, otherwise
folds the binary maximum over the elements. -/
def np_max : List ℚ → Except PyErr ℚ
  | [] => .error (.valueError ("zero-size array reduction"))
  | x :: xs => .ok (xs.foldl max x)

/-- numpy.linspace(start, stop, num) with the default endpoint=True: num
evenly spaced samples; for num greater than one the spacing is
(stop - start) / (num - 1) and the final sample equals stop exactly; num = 1
yields only start and num = 0 yields an empty array. -/
def np_linspace (start stop : ℚ) (num : Nat) : List ℚ :=
  if num = 0 then []
  else if num = 1 then [start]
  else (List.range num).map (fun i : Nat => start + (stop - start) * (i : ℚ) / ((num : ℚ) - 1))

/-- matplotlib.colors.BoundaryNorm as the data it stores: the boundary array
and the colormap color count handed to the constructor. -/
structure BoundaryNorm where
  boundaries : List ℚ
  ncolors : Nat
  deriving DecidableEq

/-- Number of discrete color regions a BoundaryNorm maps values into: one
fewer than its boundary count. -/
def BoundaryNorm.regions (b : BoundaryNorm) : Nat :=
  b.boundaries.length - 1

/-- The BoundaryNorm constructor reads boundaries[0] and boundaries[-1], so
it raises IndexError on an empty boundary list and otherwise just stores its
arguments; it performs no further validation. -/
def mk_BoundaryNorm (boundaries : List ℚ) (ncolors : Nat) : Except PyErr BoundaryNorm :=
  match boundaries with
  | [] => .error (.indexError ("index 0 out of bounds"))
  | _ :: _ => .ok (BoundaryNorm.mk boundaries ncolors)

/-- The normalization descriptor traj_scatter can hand to the backend:
either a BoundaryNorm or matplotlib.colors.LogNorm(). -/
inductive CNorm where
  | boundary : BoundaryNorm → CNorm
  | logNorm : CNorm
  deriving DecidableEq

/-- A data array as handed to the backend: either the raw input values or
the elementwise image of the input under a numpy ufunc. -/
inductive PlotData where
  | raw : List ℚ → PlotData
  | mapped : Ufunc → List ℚ → PlotData
  deriving DecidableEq

/-- Lines 74, 81, 83 and 86 compare with the Python operator is, which tests
object identity, not equality.  In CPython the string produced by str.lower
on line 65 is a freshly allocated uninterned object, so each of these
identity tests against a multi-character literal is in fact always false and
the four branch bodies are dead even with line 72 repaired.  The comparison
is modelled here as string equality, the reading under which the branch
bodies execute; the identity defect is recorded in the analyses of the
claims it affects. -/
def py_is (a b : String) : Bool :=
  a == b

/-- The first part of the notice printed by the ln and sqrt branches of
traj_scatter (lines 67-68). -/
def tick_msg : String :=
  "Use cbar.ax.set_yticklabels() or cbar.ax.set_xticklabels() to change tick labels"

/-- Outcome of the cnormalize branch block: the color data, the possibly
updated vmin and vmax, the selected norm and the printed notices. -/
structure CDispatch where
  cdata : PlotData
  vmin : Option ℚ
  vmax : Option ℚ
  norm : Option CNorm
  printed : List String
  deriving DecidableEq

/-- Lines 74-88 of traj_scatter: selection over the lowercased cnormalize.
boundary defaults vmin and vmax to the data extrema, builds levels evenly
spaced bounds with np.linspace and wraps them in a BoundaryNorm; log
installs LogNorm() and leaves the data alone; ln and sqrt replace the data
by its elementwise transform and print a tick-label notice; any other name
leaves everything untouched.  No branch validates levels, and no branch
inspects the sign of the data or raises. -/
def cnormalize_dispatch (cnorm : String) (data : List ℚ) (vmin vmax : Option ℚ)
    (levels : Nat) (colormapN : Nat) : Except PyErr CDispatch := do
  if py_is cnorm ("boundary") then
    let v ← match vmin with
      | some v => pure v
      | none => np_min data
    let V ← match vmax with
      | some V => pure V
      | none => np_max data
    let bounds := np_linspace v V levels
    let bn ← mk_BoundaryNorm bounds colormapN
    pure (CDispatch.mk (.raw data) (some v) (some V) (some (.boundary bn)) [])
  else if py_is cnorm ("log") then
    pure (CDispatch.mk (.raw data) vmin vmax (some .logNorm) [])
  else if py_is cnorm ("ln") then
    pure (CDispatch.mk (.mapped .npLog data) vmin vmax none
      [tick_msg, ("natural log normalization")])
  else if py_is cnorm ("sqrt") then
    pure (CDispatch.mk (.mapped .npSqrt data) vmin vmax none
      [tick_msg, ("sqrt normalization")])
  else
    pure (CDispatch.mk (.raw data) vmin vmax none [])

/-- The marker size argument of the backend scatter call: the plain scalar
size, or elementwise sizedata times size (kept symbolic). -/
inductive SizeSpec where
  | scalar : ℚ → SizeSpec
  | timesData : PlotData → ℚ → SizeSpec
  deriving DecidableEq

/-- Lines 90-93 of traj_scatter: when sizedata is given, an snormalize name
is looked up in transform_dict exactly as supplied (no lowercasing), which
raises KeyError for an unknown key, and the possibly transformed sizedata is
multiplied by the base size. -/
def size_branch (tdict : List (String × Ufunc)) (size : ℚ)
    (sizedata : Option (List ℚ)) (snormalize : Option String) : Except PyErr SizeSpec :=
  match sizedata with
  | none => .ok (.scalar size)
  | some sd =>
    match snormalize with
    | none => .ok (.timesData (.raw sd) size)
    | some sn =>
      match tdict.lookup sn with
      | some f => .ok (.timesData (.mapped f sd) size)
      | none => .error (.keyError sn)

/-- The backend scatter call of lines 95-97 as the data it receives. -/
structure ScatterCall where
  lons : List ℚ
  lats : List ℚ
  c : PlotData
  s : SizeSpec
  vmin : Option ℚ
  vmax : Option ℚ
  norm : Option CNorm
  deriving DecidableEq

/-- traj_scatter (mapmaker.py lines 8-99), modelled up to the backend
scatter call, which is recorded as a ScatterCall together with the notices
printed.  Line 65 lowercases cnormalize via the unbound method str.lower
(TypeError when it is None, its documented default); lines 70-72 build
transform_dict, whose entry np.ln raises AttributeError on every call that
reaches it; lines 74-88 are modelled by cnormalize_dispatch and lines 90-93
by size_branch. -/
def traj_scatter (data lons lats : List ℚ) (size : ℚ) (sizedata : Option (List ℚ))
    (cnormalize snormalize : Option String) (vmin vmax : Option ℚ)
    (levels : Nat) (colormapN : Nat) : Except PyErr (ScatterCall × List String) := do
  let cnorm ← str_lower_method cnormalize
  let tdict ← build_transform_dict
  let d ← cnormalize_dispatch cnorm data vmin vmax levels colormapN
  let s ← size_branch tdict size sizedata snormalize
  pure (ScatterCall.mk lons lats d.cdata s d.vmin d.vmax d.norm, d.printed)

/-- A numpy array of rank one or two, as meteo_contouring receives them. -/
inductive NdArray where
  | d1 : List ℚ → NdArray
  | d2 : List (List ℚ) → NdArray
  deriving DecidableEq

/-- ndarray.ndim: the rank of the array. -/
def NdArray.ndim : NdArray → Nat
  | .d1 _ => 1
  | .d2 _ => 2

/-- The elements of the array in row-major order (how numpy reductions and
meshgrid flattening traverse it). -/
def NdArray.elems : NdArray → List ℚ
  | .d1 xs => xs
  | .d2 xss => xss.flatten

/-- Lines 192-193 of meteo_contouring: vmin = data.min() when it is None. -/
def resolve_vmin (vmin : Option ℚ) (data : NdArray) : Except PyErr ℚ :=
  match vmin with
  | some v => .ok v
  | none => np_min data.elems

/-- Lines 194-195 of meteo_contouring: vmax = data.max() when it is None. -/
def resolve_vmax (vmax : Option ℚ) (data : NdArray) : Except PyErr ℚ :=
  match vmax with
  | some V => .ok V
  | none => np_max data.elems

/-- numpy.meshgrid(x, y): the coordinate inputs are flattened and broadcast;
the first output repeats the flattened x along one row per element of y, the
second repeats each element of y across a row of len(x) copies, so both
outputs have shape (len(y), len(x)). -/
def np_meshgrid (x y : NdArray) : NdArray × NdArray :=
  (.d2 (y.elems.map (fun _ => x.elems)),
   .d2 (y.elems.map (fun yi => List.replicate x.elems.length yi)))

/-- The backend contour or contourf call of lines 203-210 as the data it
receives (both branches hand over the same coordinates, data and levels). -/
structure ContourCall where
  contourf : Bool
  x : NdArray
  y : NdArray
  data : NdArray
  levels : List ℚ
  deriving DecidableEq

/-- meteo_contouring (mapmaker.py lines 143-212): defaults vmin and vmax to
the data extrema, builds the level array with numpy.linspace when no
explicit levels are given (an explicit list is passed through untouched),
expands 1-D longitude axes against a 2-D data grid into mesh grids, and
records the backend contour call. -/
def meteo_contouring (data longitudes latitudes : NdArray) (contourf : Bool)
    (vmin vmax : Option ℚ) (steps : Nat) (levels : Option (List ℚ)) :
    Except PyErr ContourCall := do
  let v ← resolve_vmin vmin data
  let V ← resolve_vmax vmax data
  let lv := match levels with
    | some ls => ls
    | none => np_linspace v V steps
  let xy := if longitudes.ndim == 1 && data.ndim == 2
    then np_meshgrid longitudes latitudes
    else (longitudes, latitudes)
  pure (ContourCall.mk contourf xy.1 xy.2 data lv)

/-- The array a is two dimensional of shape (N, M): N rows of M entries. -/
def grid_shape (a : NdArray) (N M : Nat) : Prop :=
  ∃ rws, a = NdArray.d2 rws ∧ rws.length = N ∧ ∀ r ∈ rws, r.length = M

/-- Python membership test x in l over numeric lists, as in line 246. -/
def py_in (x : ℚ) : List ℚ → Bool
  | [] => false
  | y :: ys => x == y || py_in x ys

/-- Index of the first element equal to x, as list.index computes it. -/
def py_index (x : ℚ) : List ℚ → Option Nat
  | [] => none
  | y :: ys =>
    if y == x then some 0
    else (py_index x ys).map (fun i => i + 1)

/-- Python list.index(x) (line 247): ValueError when x is absent. -/
def list_index (l : List ℚ) (x : ℚ) : Except PyErr Nat :=
  match py_index x l with
  | some i => .ok i
  | none => .error (.valueError ("x not in list"))

/-- Python l[i] for a nonnegative index: IndexError when out of range. -/
def list_getitem {α : Type} (l : List α) (i : Nat) : Except PyErr α :=
  match l[i]? with
  | some v => .ok v
  | none => .error (.indexError ("list index out of range"))

/-- The contour set handed to adjust_contourparams: its level values paired
with identifiers of the backend collection objects. -/
structure ContourSet where
  levels : List ℚ
  collections : List Nat
  deriving DecidableEq

/-- The backend mutations adjust_contourparams performs on collections:
plt.setp with the keyword arguments, coll.set_color, coll.set_alpha(0). -/
inductive CollAction where
  | setp : Nat → CollAction
  | setColor : Nat → String → CollAction
  | setAlpha0 : Nat → CollAction
  deriving DecidableEq

/-- A heap of Python list objects holding colors (None or a color string),
addressed by reference.  It makes mutation of argument lists observable:
only an in-place operation on the referenced cell would change it, while
rebinding a local name leaves it untouched. -/
structure PyHeap where
  lists : List (List (Option String))
  deriving DecidableEq

/-- Contents of the list object at reference r (empty for a dangling
reference, which the theorems never rely on). -/
def PyHeap.get (h : PyHeap) (r : Nat) : List (Option String) :=
  (h.lists[r]?).getD []

/-- Allocate a fresh list object, returning the extended heap and the new
reference. -/
def PyHeap.alloc (h : PyHeap) (v : List (Option String)) : PyHeap × Nat :=
  (PyHeap.mk (h.lists ++ [v]), h.lists.length)

/-- Lines 245-254 of adjust_contourparams: for each (level, collection) pair
of the contour set, a level listed in contours gets plt.setp(coll, kwargs)
and, when its color entry is not None, coll.set_color(color); unlisted
levels are hidden when othercontours_visible is False.  list.index and the
color subscript are modelled with their Python error behaviour. -/
def adjust_loop (contours : List ℚ) (colors : List (Option String)) (ov : Bool) :
    List (ℚ × Nat) → Except PyErr (List CollAction)
  | [] => .ok []
  | (level, coll) :: rest =>
    if py_in level contours then
      match list_index contours level with
      | .error e => .error e
      | .ok ind =>
        match list_getitem colors ind with
        | .error e => .error e
        | .ok color =>
          match adjust_loop contours colors ov rest with
          | .error e => .error e
          | .ok acts =>
            match color with
            | some c => .ok (.setp coll :: .setColor coll c :: acts)
            | none => .ok (.setp coll :: acts)
    else
      match adjust_loop contours colors ov rest with
      | .error e => .error e
      | .ok acts => .ok (if ov then acts else .setAlpha0 coll :: acts)

/-- adjust_contourparams (mapmaker.py lines 215-254).  The colors argument
is passed as a reference into the heap of list objects; the default
colors=[None] is a module-level shared object, so an in-place mutation would
leak state between calls.  Line 242 compares the lengths of contours and
colors; on mismatch line 243 evaluates colors[0] (IndexError on an empty
list), builds the freshly allocated broadcast list [colors[0]] * len(contours)
and rebinds the local name colors to it, leaving the argument object
untouched; the loop of lines 245-254 then reads from whichever list the
local name denotes. -/
def adjust_contourparams (h : PyHeap) (cm : ContourSet) (contours : List ℚ)
    (colorsRef : Nat) (othercontours_visible : Bool) :
    Except PyErr (PyHeap × List CollAction) :=
  let colors0 := h.get colorsRef
  if contours.length ≠ colors0.length then
    match list_getitem colors0 0 with
    | .error e => .error e
    | .ok c0 =>
      let fresh := List.replicate contours.length c0
      let h1 := (h.alloc fresh).1
      match adjust_loop contours fresh othercontours_visible (cm.levels.zip cm.collections) with
      | .error e => .error e
      | .ok acts => .ok (h1, acts)
  else
    match adjust_loop contours colors0 othercontours_visible (cm.levels.zip cm.collections) with
    | .error e => .error e
    | .ok acts => .ok (h, acts)

/-- C1: the claim states that with cnormalize left None/absent (its
documented default) traj_scatter returns the data unchanged, hands no norm
to the backend and does not fail.  In fact line 65 calls the unbound method
str.lower on None, so every such call raises TypeError before anything else
happens; no backend call and no return value are ever produced. -/
theorem C1_default_cnormalize_raises_typeerror :
    traj_scatter [1, 2] [3, 4] [5, 6] 25 none none none none none 11 256 =
      .error (.typeError ("str.lower received None")) := rfl

/-- C2: a boundary-mode call never reaches the boundary branch: line 72
evaluates np.ln while building transform_dict and raises AttributeError
first.  The boundary branch itself (lines 75-80), run on the same
arguments, does exactly what the claim describes: it derives vmin = 0 and
vmax = 10 from the data, builds levels = 5 evenly spaced bounds whose first
element is vmin and whose last is vmax, and wraps them in a BoundaryNorm
discretizing over 5 - 1 = 4 regions. -/
theorem C2_boundary_raises_before_branch :
    traj_scatter [0, 10] [7, 8] [9, 9] 25 none (some ("boundary")) none none none 5 256 =
      .error (.attributeError ("ln")) ∧
    cnormalize_dispatch ("boundary") [0, 10] none none 5 256 =
      .ok (CDispatch.mk (.raw [0, 10]) (some 0) (some 10)
        (some (.boundary (BoundaryNorm.mk [0, 5/2, 5, 15/2, 10] 256))) []) ∧
    (BoundaryNorm.mk [0, 5/2, 5, 15/2, 10] 256).regions = 4 := by
  refine ⟨rfl, ?_, by decide⟩
  norm_num +decide [cnormalize_dispatch, py_is, np_min, np_max, np_linspace, mk_BoundaryNorm,
    List.range_succ, Except.instMonad, Except.bind, Except.pure, Except.map]

/-- C3 counterexample: on data = [1, 10, 100] with a zero appended under
mode log the claim demands a DomainError; the call instead raises
AttributeError at line 72 (np.ln), and the all-positive call, for which the
claim demands success, raises the very same error.  No call raises a
DomainError: the module defines no such exception and inspects no data. -/
theorem C3_log_zero_raises_attributeerror_not_domainerror :
    traj_scatter [1, 10, 100, 0] [0, 0, 0, 0] [0, 0, 0, 0] 25 none (some ("log")) none
        none none 11 256 = .error (.attributeError ("ln")) ∧
    traj_scatter [1, 10, 100, 0] [0, 0, 0, 0] [0, 0, 0, 0] 25 none (some ("log")) none
        none none 11 256 ≠ .error .domainError ∧
    traj_scatter [1, 10, 100] [0, 0, 0] [0, 0, 0] 25 none (some ("log")) none
        none none 11 256 = .error (.attributeError ("ln")) := ⟨rfl, by decide, rfl⟩

/-- C3 amended: traj_scatter performs no domain validation and can never
raise a DomainError; for every data array and every string mode (log, ln,
sqrt or anything else, in any case) the call raises AttributeError while
evaluating np.ln in the transform_dict literal on line 72, before any branch
could inspect the data.  (Had the branches been reachable, log would install
LogNorm without looking at the data, and the numpy transforms of ln and
sqrt return nan or -inf on invalid input rather than raise.) -/
theorem C3_every_string_mode_raises_attributeerror
    (data lons lats : List ℚ) (size : ℚ) (sizedata : Option (List ℚ))
    (s : String) (snormalize : Option String) (vmin vmax : Option ℚ)
    (levels colormapN : Nat) :
    traj_scatter data lons lats size sizedata (some s) snormalize vmin vmax levels
      colormapN = .error (.attributeError ("ln")) := rfl

/-- C4: casing of the mode strings does not change the result of
traj_scatter.  This holds, but only degenerately: line 65 lowercases
cnormalize, yet every call whose cnormalize is a string raises
AttributeError at line 72 before any mode is selected, so all casings of all
mode names, color or size, produce the identical error.  Note that the
lookup transform_dict[snormalize] on line 92 performs no case folding, so
size-mode selection as written would be case-sensitive (KeyError on LOG)
were line 72 ever repaired. -/
theorem C4_mode_casing_never_changes_result
    (data lons lats : List ℚ) (size : ℚ) (sizedata : Option (List ℚ))
    (c c2 : String) (sn sn2 : Option String) (vmin vmax : Option ℚ)
    (levels colormapN : Nat)
    (_hc : py_lower c = py_lower c2)
    (_hs : Option.map py_lower sn = Option.map py_lower sn2) :
    traj_scatter data lons lats size sizedata (some c) sn vmin vmax levels colormapN =
      traj_scatter data lons lats size sizedata (some c2) sn2 vmin vmax levels colormapN := rfl

theorem C4_mode_casing_witness :
    py_lower ("BOUNDARY") = py_lower ("boundary") ∧
    Option.map py_lower (some ("LOG")) = Option.map py_lower (some ("log")) ∧
    traj_scatter [1] [0] [0] 25 (some [2]) (some ("BOUNDARY")) (some ("LOG")) none none 11
        256 =
      traj_scatter [1] [0] [0] 25 (some [2]) (some ("boundary")) (some ("log")) none none 11
        256 :=
  ⟨rfl, rfl,
    C4_mode_casing_never_changes_result [1] [0] [0] 25 (some [2]) ("BOUNDARY") ("boundary")
      (some ("LOG")) (some ("log")) none none 11 256 rfl rfl⟩

/-- C5: ln and sqrt calls never reach their branches: every call with a
string mode raises AttributeError at line 72.  The branches themselves
(lines 83-88), run on the same arguments, do what the claim describes:
ln replaces the data by its elementwise natural logarithm and sqrt by its
elementwise square root, neither installs a norm, and each prints an
informational tick-label notice rather than raising. -/
theorem C5_ln_sqrt_raise_before_branch :
    traj_scatter [1, 3] [0, 0] [0, 0] 25 none (some ("ln")) none none none 11 256 =
      .error (.attributeError ("ln")) ∧
    traj_scatter [1, 3] [0, 0] [0, 0] 25 none (some ("sqrt")) none none none 11 256 =
      .error (.attributeError ("ln")) ∧
    cnormalize_dispatch ("ln") [1, 3] none none 11 256 =
      .ok (CDispatch.mk (.mapped .npLog [1, 3]) none none none
        [tick_msg, ("natural log normalization")]) ∧
    cnormalize_dispatch ("sqrt") [1, 3] none none 11 256 =
      .ok (CDispatch.mk (.mapped .npSqrt [1, 3]) none none none
        [tick_msg, ("sqrt normalization")]) := by
  refine ⟨rfl, rfl, ?_, ?_⟩ <;>
    norm_num +decide [cnormalize_dispatch, py_is, Except.instMonad, Except.bind, Except.pure,
      Except.map]

/-- C6 counterexample: the claim demands that a boundary call with
levels below two fail with ConfigurationError.  With levels = 1 the call
does fail, but with AttributeError from np.ln on line 72; the module defines
no ConfigurationError and no branch examines levels. -/
theorem C6_levels_one_raises_attributeerror_not_configurationerror :
    traj_scatter [0, 10] [0, 0] [0, 0] 25 none (some ("boundary")) none none none 1 256 =
      .error (.attributeError ("ln")) ∧
    traj_scatter [0, 10] [0, 0] [0, 0] 25 none (some ("boundary")) none none none 1 256 ≠
      .error .configurationError := ⟨rfl, by decide⟩

theorem foldl_min_mem (x : ℚ) (l : List ℚ) : l.foldl min x = x ∨ l.foldl min x ∈ l := by
  induction l generalizing x with
  | nil => left; rfl
  | cons y ys ih =>
    rcases ih (min x y) with h | h
    · rcases min_choice x y with hm | hm
      · left; rw [List.foldl_cons, h, hm]
      · right; rw [List.foldl_cons, h, hm]; exact List.mem_cons_self y ys
    · right; rw [List.foldl_cons]; exact List.mem_cons_of_mem y h

theorem foldl_min_le_init (x : ℚ) (l : List ℚ) : l.foldl min x ≤ x := by
  induction l generalizing x with
  | nil => exact le_refl x
  | cons y ys ih =>
    rw [List.foldl_cons]
    exact le_trans (ih (min x y)) (min_le_left x y)

theorem foldl_min_le_mem (x : ℚ) (l : List ℚ) (w : ℚ) (hw : w ∈ l) : l.foldl min x ≤ w := by
  induction l generalizing x with
  | nil => cases hw
  | cons y ys ih =>
    rw [List.foldl_cons]
    rcases List.mem_cons.mp hw with h | h
    · exact le_trans (foldl_min_le_init (min x y) ys) (h ▸ min_le_right x y)
    · exact ih (min x y) h

theorem foldl_max_mem (x : ℚ) (l : List ℚ) : l.foldl max x = x ∨ l.foldl max x ∈ l := by
  induction l generalizing x with
  | nil => left; rfl
  | cons y ys ih =>
    rcases ih (max x y) with h | h
    · rcases max_choice x y with hm | hm
      · left; rw [List.foldl_cons, h, hm]
      · right; rw [List.foldl_cons, h, hm]; exact List.mem_cons_self y ys
    · right; rw [List.foldl_cons]; exact List.mem_cons_of_mem y h

theorem foldl_max_init_le (x : ℚ) (l : List ℚ) : x ≤ l.foldl max x := by
  induction l generalizing x with
  | nil => exact le_refl x
  | cons y ys ih =>
    rw [List.foldl_cons]
    exact le_trans (le_max_left x y) (ih (max x y))

theorem foldl_max_mem_le (x : ℚ) (l : List ℚ) (w : ℚ) (hw : w ∈ l) : w ≤ l.foldl max x := by
  induction l generalizing x with
  | nil => cases hw
  | cons y ys ih =>
    rw [List.foldl_cons]
    rcases List.mem_cons.mp hw with h | h
    · exact le_trans (h ▸ le_max_right x y) (foldl_max_init_le (max x y) ys)
    · exact ih (max x y) h

/-- np_min computes a least element of a nonempty list. -/
theorem np_min_spec (xs : List ℚ) (v : ℚ) (h : np_min xs = .ok v) :
    v ∈ xs ∧ ∀ w ∈ xs, v ≤ w := by
  match xs, h with
  | x :: l, h =>
    have hv : l.foldl min x = v := by
      cases h
      rfl
    constructor
    · rcases foldl_min_mem x l with hm | hm
      · rw [← hv, hm]; exact List.mem_cons_self x l
      · rw [← hv]; exact List.mem_cons_of_mem x hm
    · intro w hw
      rcases List.mem_cons.mp hw with hww | hww
      · rw [← hv, hww]; exact foldl_min_le_init x l
      · rw [← hv]; exact foldl_min_le_mem x l w hww

/-- np_max computes a greatest element of a nonempty list. -/
theorem np_max_spec (xs : List ℚ) (V : ℚ) (h : np_max xs = .ok V) :
    V ∈ xs ∧ ∀ w ∈ xs, w ≤ V := by
  match xs, h with
  | x :: l, h =>
    have hv : l.foldl max x = V := by
      cases h
      rfl
    constructor
    · rcases foldl_max_mem x l with hm | hm
      · rw [← hv, hm]; exact List.mem_cons_self x l
      · rw [← hv]; exact List.mem_cons_of_mem x hm
    · intro w hw
      rcases List.mem_cons.mp hw with hww | hww
      · rw [← hv, hww]; exact foldl_max_init_le x l
      · rw [← hv]; exact foldl_max_mem_le x l w hww

theorem np_linspace_length (a b : ℚ) (n : Nat) : (np_linspace a b n).length = n := by
  unfold np_linspace
  split
  · simp [*]
  · split
    · simp [*]
    · rw [List.length_map, List.length_range]

theorem np_linspace_getElem (a b : ℚ) (n i : Nat) (h2 : 2 ≤ n) (hi : i < n) :
    (np_linspace a b n)[i]? = some (a + (b - a) * i / ((n : ℚ) - 1)) := by
  unfold np_linspace
  rw [if_neg (by omega), if_neg (by omega), List.getElem?_map, List.getElem?_range hi,
    Option.map_some']

theorem np_linspace_first (a b : ℚ) (n : Nat) (h1 : 1 ≤ n) :
    (np_linspace a b n)[0]? = some a := by
  rcases Nat.lt_or_ge n 2 with h | h
  · have : n = 1 := by omega
    subst this
    simp [np_linspace]
  · rw [np_linspace_getElem a b n 0 h (by omega)]
    norm_num

theorem np_linspace_last (a b : ℚ) (n : Nat) (h2 : 2 ≤ n) :
    (np_linspace a b n)[n - 1]? = some b := by
  rw [np_linspace_getElem a b n (n - 1) h2 (by omega)]
  have hne : ((n : ℚ) - 1) ≠ 0 := by
    have : (2 : ℚ) ≤ (n : ℚ) := by exact_mod_cast h2
    linarith
  have hcast : (((n - 1 : Nat)) : ℚ) = (n : ℚ) - 1 := by
    have h1 : 1 ≤ n := by omega
    push_cast [h1]
    ring
  rw [hcast, mul_div_assoc, div_self hne, mul_one]
  norm_num

theorem np_linspace_spacing (a b : ℚ) (n i : Nat) (h2 : 2 ≤ n) (hi : i + 1 < n) :
    ∃ x y, (np_linspace a b n)[i]? = some x ∧ (np_linspace a b n)[i + 1]? = some y ∧
      y - x = (b - a) / ((n : ℚ) - 1) := by
  have hne : ((n : ℚ) - 1) ≠ 0 := by
    have : (2 : ℚ) ≤ (n : ℚ) := by exact_mod_cast h2
    linarith
  refine ⟨_, _, np_linspace_getElem a b n i h2 (by omega),
    np_linspace_getElem a b n (i + 1) h2 hi, ?_⟩
  push_cast
  field_simp
  ring

/-- Evaluation lemma for meteo_contouring once vmin and vmax are
resolved. -/
theorem meteo_contouring_eq (data longitudes latitudes : NdArray) (cf : Bool)
    (vmin vmax : Option ℚ) (steps : Nat) (levels : Option (List ℚ)) (v V : ℚ)
    (hv : resolve_vmin vmin data = .ok v) (hV : resolve_vmax vmax data = .ok V) :
    meteo_contouring data longitudes latitudes cf vmin vmax steps levels =
      .ok (ContourCall.mk cf
        (if longitudes.ndim == 1 && data.ndim == 2
          then (np_meshgrid longitudes latitudes).1 else longitudes)
        (if longitudes.ndim == 1 && data.ndim == 2
          then (np_meshgrid longitudes latitudes).2 else latitudes)
        data
        (match levels with
          | some ls => ls
          | none => np_linspace v V steps)) := by
  unfold meteo_contouring
  rw [hv, hV]
  simp only [Except.instMonad, Except.bind, Except.pure, Except.map]
  split <;> rfl

/-- C7: when meteo_contouring receives 1-D longitude and latitude axes of
lengths M and N and a 2-D data grid of shape (N, M), lines 200-201 expand
the axes with np.meshgrid, and the coordinate arrays recorded in the backend
call are 2-D grids of shape (N, M) matching the data. -/
theorem C7_meshgrid_expands_to_data_shape (xs ys : List ℚ) (rows : List (List ℚ))
    (M N : Nat) (cf : Bool) (vmin vmax : Option ℚ) (steps : Nat)
    (levels : Option (List ℚ)) (v V : ℚ)
    (hx : xs.length = M) (hy : ys.length = N)
    (_hrows : rows.length = N) (_hrect : ∀ r ∈ rows, r.length = M)
    (hv : resolve_vmin vmin (.d2 rows) = .ok v)
    (hV : resolve_vmax vmax (.d2 rows) = .ok V) :
    ∃ call, meteo_contouring (.d2 rows) (.d1 xs) (.d1 ys) cf vmin vmax steps levels =
        .ok call ∧
      call.data = .d2 rows ∧ grid_shape call.x N M ∧ grid_shape call.y N M := by
  refine ⟨_, meteo_contouring_eq (.d2 rows) (.d1 xs) (.d1 ys) cf vmin vmax steps levels v V
    hv hV, rfl, ?_, ?_⟩
  · show grid_shape (if (NdArray.d1 xs).ndim == 1 && (NdArray.d2 rows).ndim == 2
      then (np_meshgrid (.d1 xs) (.d1 ys)).1 else (.d1 xs)) N M
    rw [if_pos (by rfl)]
    refine ⟨ys.map (fun _ => xs), rfl, ?_, ?_⟩
    · rw [List.length_map]; exact hy
    · intro r hr
      rcases List.mem_map.mp hr with ⟨yi, _, him⟩
      rw [← him]
      exact hx
  · show grid_shape (if (NdArray.d1 xs).ndim == 1 && (NdArray.d2 rows).ndim == 2
      then (np_meshgrid (.d1 xs) (.d1 ys)).2 else (.d1 ys)) N M
    rw [if_pos (by rfl)]
    refine ⟨ys.map (fun yi => List.replicate xs.length yi), rfl, ?_, ?_⟩
    · rw [List.length_map]; exact hy
    · intro r hr
      rcases List.mem_map.mp hr with ⟨yi, _, him⟩
      rw [← him, List.length_replicate]
      exact hx

theorem C7_meshgrid_witness :
    ([(1 : ℚ), 2]).length = 2 ∧ ([(3 : ℚ), 4, 5]).length = 3 ∧
    ([[(0 : ℚ), 1], [2, 3], [4, 5]]).length = 3 ∧
    (∀ r ∈ [[(0 : ℚ), 1], [2, 3], [4, 5]], r.length = 2) ∧
    resolve_vmin (some 0) (.d2 [[0, 1], [2, 3], [4, 5]]) = .ok 0 ∧
    resolve_vmax (some 5) (.d2 [[0, 1], [2, 3], [4, 5]]) = .ok 5 ∧
    (∃ call, meteo_contouring (.d2 [[0, 1], [2, 3], [4, 5]]) (.d1 [1, 2]) (.d1 [3, 4, 5])
        true (some 0) (some 5) 50 none = .ok call ∧
      call.data = .d2 [[0, 1], [2, 3], [4, 5]] ∧ grid_shape call.x 3 2 ∧
      grid_shape call.y 3 2) :=
  ⟨rfl, rfl, rfl, by decide, rfl, rfl,
    C7_meshgrid_expands_to_data_shape [1, 2] [3, 4, 5] [[0, 1], [2, 3], [4, 5]] 2 3 true
      (some 0) (some 5) 50 none 0 5 rfl rfl rfl (by decide) rfl rfl⟩

/-- C8 counterexample: the claim promises, for every call without explicit
levels, steps evenly spaced values from vmin to vmax inclusive.  With
steps = 1 and data extrema 0 and 10 the backend receives the single level
[0]: vmax = 10 is not included, np.linspace with one sample yields only the
start point. -/
theorem C8_steps_one_omits_vmax :
    Except.map ContourCall.levels
        (meteo_contouring (.d2 [[0, 10]]) (.d1 [1, 2]) (.d1 [3]) true none none 1 none) =
      .ok [0] ∧ ¬ ((10 : ℚ) ∈ [(0 : ℚ)]) := by
  constructor
  · norm_num +decide [meteo_contouring, resolve_vmin, resolve_vmax, np_min, np_max,
      NdArray.elems, np_linspace, Except.instMonad, Except.bind, Except.pure, Except.map]
  · decide

/-- C8 amended: when no explicit levels sequence is supplied and steps is at
least two, the levels handed to the backend are exactly the steps evenly
spaced values of np.linspace from vmin to vmax inclusive, where vmin and
vmax default to the data minimum and maximum when not supplied (steps = 1
instead yields the single level vmin, omitting vmax); an explicitly supplied
levels sequence is always passed through unchanged, overriding level
creation. -/
theorem C8_levels_construction (data xsA ysA : NdArray) (cf : Bool)
    (vmin vmax : Option ℚ) (steps : Nat) (v V : ℚ)
    (hs : 2 ≤ steps)
    (hv : resolve_vmin vmin data = .ok v) (hV : resolve_vmax vmax data = .ok V) :
    (∀ ls, Except.map ContourCall.levels
        (meteo_contouring data xsA ysA cf vmin vmax steps (some ls)) = .ok ls) ∧
    Except.map ContourCall.levels
        (meteo_contouring data xsA ysA cf vmin vmax steps none) =
      .ok (np_linspace v V steps) ∧
    (np_linspace v V steps).length = steps ∧
    (np_linspace v V steps)[0]? = some v ∧
    (np_linspace v V steps)[steps - 1]? = some V ∧
    (∀ i, i + 1 < steps → ∃ x y, (np_linspace v V steps)[i]? = some x ∧
      (np_linspace v V steps)[i + 1]? = some y ∧
      y - x = (V - v) / ((steps : ℚ) - 1)) ∧
    (vmin = none → v ∈ data.elems ∧ ∀ w ∈ data.elems, v ≤ w) ∧
    (vmax = none → V ∈ data.elems ∧ ∀ w ∈ data.elems, w ≤ V) := by
  refine ⟨?_, ?_, np_linspace_length v V steps, np_linspace_first v V steps (by omega),
    np_linspace_last v V steps hs, fun i hi => np_linspace_spacing v V steps i hs hi,
    ?_, ?_⟩
  · intro ls
    rw [meteo_contouring_eq data xsA ysA cf vmin vmax steps (some ls) v V hv hV]
    rfl
  · rw [meteo_contouring_eq data xsA ysA cf vmin vmax steps none v V hv hV]
    rfl
  · intro hnone
    rw [hnone] at hv
    exact np_min_spec data.elems v hv
  · intro hnone
    rw [hnone] at hV
    exact np_max_spec data.elems V hV

theorem C8_levels_witness :
    2 ≤ 3 ∧
    resolve_vmin none (.d2 [[(0 : ℚ), 10]]) = .ok 0 ∧
    resolve_vmax none (.d2 [[(0 : ℚ), 10]]) = .ok 10 ∧
    ((∀ ls, Except.map ContourCall.levels
        (meteo_contouring (.d2 [[(0 : ℚ), 10]]) (.d1 [1, 2]) (.d1 [3]) true none none 3
          (some ls)) = .ok ls) ∧
    Except.map ContourCall.levels
        (meteo_contouring (.d2 [[(0 : ℚ), 10]]) (.d1 [1, 2]) (.d1 [3]) true none none 3
          none) =
      .ok (np_linspace 0 10 3) ∧
    (np_linspace (0 : ℚ) 10 3).length = 3 ∧
    (np_linspace (0 : ℚ) 10 3)[0]? = some 0 ∧
    (np_linspace (0 : ℚ) 10 3)[3 - 1]? = some 10 ∧
    (∀ i, i + 1 < 3 → ∃ x y, (np_linspace (0 : ℚ) 10 3)[i]? = some x ∧
      (np_linspace (0 : ℚ) 10 3)[i + 1]? = some y ∧
      y - x = ((10 : ℚ) - 0) / ((3 : ℚ) - 1)) ∧
    ((none : Option ℚ) = none →
      (0 : ℚ) ∈ (NdArray.d2 [[(0 : ℚ), 10]]).elems ∧
      ∀ w ∈ (NdArray.d2 [[(0 : ℚ), 10]]).elems, (0 : ℚ) ≤ w) ∧
    ((none : Option ℚ) = none →
      (10 : ℚ) ∈ (NdArray.d2 [[(0 : ℚ), 10]]).elems ∧
      ∀ w ∈ (NdArray.d2 [[(0 : ℚ), 10]]).elems, w ≤ (10 : ℚ))) :=
  ⟨by decide,
    by simp +decide [resolve_vmin, np_min, NdArray.elems, min_def],
    by simp +decide [resolve_vmax, np_max, NdArray.elems, max_def],
    C8_levels_construction (.d2 [[(0 : ℚ), 10]]) (.d1 [1, 2]) (.d1 [3]) true none none 3
      0 10 (by decide)
      (by simp +decide [resolve_vmin, np_min, NdArray.elems, min_def])
      (by simp +decide [resolve_vmax, np_max, NdArray.elems, max_def])⟩

/-- C6 amended: boundary mode performs no validation of levels whatsoever:
for every levels value the call raises the same AttributeError at line 72,
and the boundary branch itself (lines 75-80), run with levels = 1, raises
nothing, simply building the single bound [vmin] and handing it to
BoundaryNorm. -/
theorem C6_no_levels_validation
    (data lons lats : List ℚ) (size : ℚ) (sizedata : Option (List ℚ))
    (sn : Option String) (vmin vmax : Option ℚ) (levels colormapN : Nat) :
    traj_scatter data lons lats size sizedata (some ("boundary")) sn vmin vmax levels
        colormapN = .error (.attributeError ("ln")) ∧
    cnormalize_dispatch ("boundary") [0, 10] none none 1 256 =
      .ok (CDispatch.mk (.raw [0, 10]) (some 0) (some 10)
        (some (.boundary (BoundaryNorm.mk [0] 256))) []) := by
  refine ⟨rfl, ?_⟩
  norm_num +decide [cnormalize_dispatch, py_is, np_min, np_max, np_linspace, mk_BoundaryNorm,
    Except.instMonad, Except.bind, Except.pure, Except.map]

/-- A successful Python membership test yields a successful list.index with
an in-range result. -/
theorem py_in_index (x : ℚ) (l : List ℚ) (h : py_in x l = true) :
    ∃ i, py_index x l = some i ∧ i < l.length := by
  induction l with
  | nil => cases h
  | cons y ys ih =>
    by_cases hxy : y = x
    · refine ⟨0, ?_, by simp⟩
      unfold py_index
      rw [if_pos (by exact beq_iff_eq.mpr hxy)]
    · have hx : (x == y) = false := by
        exact beq_eq_false_iff_ne.mpr (fun hh => hxy hh.symm)
      have hys : py_in x ys = true := by
        unfold py_in at h
        rw [hx] at h
        simpa using h
      rcases ih hys with ⟨i, hi, hlt⟩
      refine ⟨i + 1, ?_, by simpa using Nat.succ_lt_succ hlt⟩
      unfold py_index
      rw [if_neg (by exact fun hh => hxy (beq_iff_eq.mp hh)), hi]
      rfl

/-- The collection loop of lines 245-254 cannot raise once the colors list
is at least as long as the contours list: list.index succeeds for levels
that passed the membership test and its result is a valid colors index. -/
theorem adjust_loop_ok (contours : List ℚ) (colors : List (Option String)) (ov : Bool)
    (pairs : List (ℚ × Nat)) (h : contours.length ≤ colors.length) :
    ∃ acts, adjust_loop contours colors ov pairs = .ok acts := by
  induction pairs with
  | nil => exact ⟨[], rfl⟩
  | cons p rest ih =>
    rcases ih with ⟨acts, hacts⟩
    rcases p with ⟨level, coll⟩
    by_cases hin : py_in level contours = true
    · rcases py_in_index level contours hin with ⟨i, hi, hlt⟩
      have hcol : i < colors.length := lt_of_lt_of_le hlt h
      have hget : colors[i]? = some colors[i] := List.getElem?_eq_getElem hcol
      unfold adjust_loop
      rw [if_pos hin]
      simp only [list_index, hi, list_getitem, hget, hacts]
      cases hc : colors[i] with
      | some c => exact ⟨.setp coll :: .setColor coll c :: acts, rfl⟩
      | none => exact ⟨.setp coll :: acts, rfl⟩
    · unfold adjust_loop
      rw [if_neg hin, hacts]
      cases ov with
      | true => exact ⟨acts, rfl⟩
      | false => exact ⟨.setAlpha0 coll :: acts, rfl⟩

/-- Allocation of a fresh list object does not disturb existing cells. -/
theorem PyHeap.get_alloc (h : PyHeap) (v : List (Option String)) (q : Nat)
    (hq : q < h.lists.length) : ((h.alloc v).1).get q = h.get q := by
  unfold PyHeap.get PyHeap.alloc
  rw [List.getElem?_append_left hq]

/-- A cell whose contents are nonempty is a valid reference. -/
theorem PyHeap.lt_length_of_get_ne_nil (h : PyHeap) (r : Nat) (hne : h.get r ≠ []) :
    r < h.lists.length := by
  by_contra hge
  apply hne
  unfold PyHeap.get
  rw [List.getElem?_eq_none (by omega)]
  rfl

/-- C9 counterexample: the claim quantifies over every call with
mismatched-length contours and colors lists and asserts the operation never
raises; with colors = [] and contours = [1] the lengths differ and the
broadcast expression colors[0] on line 243 raises IndexError. -/
theorem C9_empty_colors_raises_indexerror :
    adjust_contourparams (PyHeap.mk [[]]) (ContourSet.mk [] []) [1] 0 true =
      .error (.indexError ("list index out of range")) := by decide

/-- C9 amended: whenever the contours and colors lists have different
lengths and the colors list is nonempty (as the default [None] is), the
operation does not raise: line 243 broadcasts the first color into a fresh
list with one copy per listed contour, and the collection loop then runs to
completion. -/
theorem C9_broadcasts_first_color (h : PyHeap) (cm : ContourSet) (contours : List ℚ)
    (r : Nat) (ov : Bool) (c0 : Option String) (cs : List (Option String))
    (hcell : h.get r = c0 :: cs)
    (hlen : contours.length ≠ (c0 :: cs).length) :
    ∃ acts, adjust_contourparams h cm contours r ov =
        .ok ((h.alloc (List.replicate contours.length c0)).1, acts) ∧
      adjust_loop contours (List.replicate contours.length c0) ov
        (cm.levels.zip cm.collections) = .ok acts := by
  rcases adjust_loop_ok contours (List.replicate contours.length c0) ov
    (cm.levels.zip cm.collections) (by rw [List.length_replicate]) with ⟨acts, hacts⟩
  refine ⟨acts, ?_, hacts⟩
  unfold adjust_contourparams
  rw [hcell, if_pos hlen]
  simp only [list_getitem, List.getElem?_cons_zero, hacts]

theorem C9_broadcasts_witness :
    PyHeap.get (PyHeap.mk [[none]]) 0 = [none] ∧
    ([(1 : ℚ), 2, 3]).length ≠ ([(none : Option String)]).length ∧
    (∃ acts, adjust_contourparams (PyHeap.mk [[none]]) (ContourSet.mk [1, 2, 3] [0, 1, 2])
          [1, 2, 3] 0 true =
        .ok (((PyHeap.mk [[none]]).alloc (List.replicate ([(1 : ℚ), 2, 3]).length none)).1,
          acts) ∧
      adjust_loop [1, 2, 3] (List.replicate ([(1 : ℚ), 2, 3]).length none) true
        ((ContourSet.mk [(1 : ℚ), 2, 3] [0, 1, 2]).levels.zip
          (ContourSet.mk [(1 : ℚ), 2, 3] [0, 1, 2]).collections) = .ok acts) :=
  ⟨rfl, by decide,
    C9_broadcasts_first_color (PyHeap.mk [[none]]) (ContourSet.mk [1, 2, 3] [0, 1, 2])
      [1, 2, 3] 0 true none [] rfl (by decide)⟩

/-- C10: adjust_contourparams never mutates the colors list object it
receives: line 243 only rebinds the local name to a freshly allocated
broadcast list, and the loop only reads.  Any successful run leaves the
argument cell, and every other existing cell of the heap, exactly as it
was, so no state can leak between calls through the shared default
[None]. -/
theorem C10_colors_object_never_mutated (h : PyHeap) (cm : ContourSet)
    (contours : List ℚ) (r : Nat) (ov : Bool) (h2 : PyHeap) (acts : List CollAction)
    (hrun : adjust_contourparams h cm contours r ov = .ok (h2, acts)) :
    h2.get r = h.get r ∧ ∀ q, q < h.lists.length → h2.get q = h.get q := by
  unfold adjust_contourparams at hrun
  by_cases hlen : contours.length ≠ (h.get r).length
  · rw [if_pos hlen] at hrun
    cases hcol : h.get r with
    | nil =>
      rw [hcol] at hrun
      simp [list_getitem] at hrun
    | cons c0 cs =>
      rw [hcol] at hrun
      simp only [list_getitem, List.getElem?_cons_zero] at hrun
      cases hloop : adjust_loop contours (List.replicate contours.length c0) ov
          (cm.levels.zip cm.collections) with
      | error e =>
        rw [hloop] at hrun
        cases hrun
      | ok acts2 =>
        rw [hloop] at hrun
        have hh2 : h2 = ((h.alloc (List.replicate contours.length c0)).1) := by
          cases hrun
          rfl
        have hr : r < h.lists.length :=
          PyHeap.lt_length_of_get_ne_nil h r (by rw [hcol]; exact List.cons_ne_nil c0 cs)
        subst hh2
        exact ⟨(PyHeap.get_alloc h (List.replicate contours.length c0) r hr).trans hcol,
          fun q hq => PyHeap.get_alloc h (List.replicate contours.length c0) q hq⟩
  · rw [if_neg hlen] at hrun
    cases hloop : adjust_loop contours (h.get r) ov (cm.levels.zip cm.collections) with
    | error e =>
      rw [hloop] at hrun
      cases hrun
    | ok acts2 =>
      rw [hloop] at hrun
      have hh2 : h2 = h := by
        cases hrun
        rfl
      subst hh2
      exact ⟨rfl, fun q _ => rfl⟩

theorem C10_colors_witness :
    adjust_contourparams (PyHeap.mk [[none]]) (ContourSet.mk [1, 2, 3] [0, 1, 2])
        [1, 2, 3] 0 true =
      .ok (PyHeap.mk [[none], [none, none, none]], [.setp 0, .setp 1, .setp 2]) ∧
    (PyHeap.get (PyHeap.mk [[none], [none, none, none]]) 0 =
        PyHeap.get (PyHeap.mk [[none]]) 0 ∧
      ∀ q, q < (PyHeap.mk [[none]]).lists.length →
        PyHeap.get (PyHeap.mk [[none], [none, none, none]]) q =
          PyHeap.get (PyHeap.mk [[none]]) q) :=
  ⟨by decide,
    C10_colors_object_never_mutated (PyHeap.mk [[none]]) (ContourSet.mk [1, 2, 3] [0, 1, 2])
      [1, 2, 3] 0 true (PyHeap.mk [[none], [none, none, none]]) [.setp 0, .setp 1, .setp 2]
      (by decide)⟩
